import Mathlib

/-!
Verification of the interview-workflow repository (state container,
transition guards, phase agents, workflow graph driver) against its
design specification.

The Python values manipulated by the program are modelled by the dynamic
type `Val` (None, strings, numbers, lists, insertion-ordered dicts).
Python dicts are modelled as association lists in insertion order with
unique keys; `dset` models `d[k] = v` (overwrite in place, else append),
`dupdate` models `dict.update`.
-/

/-- Dynamic Python value: None, string, number, list, or dict
(insertion-ordered association list). -/
inductive Val where
  | vNone : Val
  | vStr : String → Val
  | vNat : Nat → Val
  | vList : List Val → Val
  | vDict : List (String × Val) → Val
  deriving Repr

/- Structural equality on dynamic values, modelling Python `==` for the
shapes this program builds (all dict literals in the program are
constructed with one fixed key order, so ordered comparison of the
association lists agrees with Python's order-insensitive dict equality
on every comparison the program performs). -/
mutual
def Val.beq : Val → Val → Bool
  | .vNone, .vNone => true
  | .vStr a, .vStr b => a == b
  | .vNat a, .vNat b => a == b
  | .vList a, .vList b => Val.beqList a b
  | .vDict a, .vDict b => Val.beqDict a b
  | _, _ => false

def Val.beqList : List Val → List Val → Bool
  | [], [] => true
  | x :: xs, y :: ys => Val.beq x y && Val.beqList xs ys
  | _, _ => false

def Val.beqDict : List (String × Val) → List (String × Val) → Bool
  | [], [] => true
  | (k, x) :: xs, (l, y) :: ys => k == l && Val.beq x y && Val.beqDict xs ys
  | _, _ => false
end

/-- Python `v == s` for a string literal `s` (used where the program
compares a value against a known phase/node-name string). -/
def isStrEq (s : String) : Val → Bool
  | .vStr t => t == s
  | _ => false

/-- A Python dict as an insertion-ordered association list. -/
abbrev PyDict := List (String × Val)

/-- Models `d.get(k)` as an option (None when absent). -/
def dget : PyDict → String → Option Val
  | [], _ => none
  | (k, v) :: rest, key => if k = key then some v else dget rest key

/-- Models `d.get(k, default)`. -/
def dgetD (d : PyDict) (key : String) (default : Val) : Val :=
  (dget d key).getD default

/-- Models `k in d` for a dict. -/
def hasKey (d : PyDict) (key : String) : Bool :=
  (dget d key).isSome

/-- Models `d[k] = v`: overwrite the existing entry in place, else append. -/
def dset : PyDict → String → Val → PyDict
  | [], key, v => [(key, v)]
  | (k, w) :: rest, key, v =>
      if k = key then (k, v) :: rest else (k, w) :: dset rest key v

/-- Models `d.update(p)`: apply `dset` for each entry of `p` in order. -/
def dupdate (d : PyDict) (p : PyDict) : PyDict :=
  p.foldl (fun acc kv => dset acc kv.1 kv.2) d

/-- Models `d.setdefault(k, v)`: insert `(k, v)` only when `k` is absent. -/
def setdefault (d : PyDict) (key : String) (v : Val) : PyDict :=
  if hasKey d key then d else d ++ [(key, v)]

/-- Python truthiness `bool(v)`. -/
def truthy : Val → Bool
  | .vNone => false
  | .vStr s => !s.isEmpty
  | .vNat n => n != 0
  | .vList l => !l.isEmpty
  | .vDict d => !d.isEmpty

/-! ## State container (`src/state.py`, class `InterviewState`)

The dataclass has four declared fields; being a plain Python object it
also accepts attributes outside the schema via `setattr` (the `set`
method warns on such keys but still stores them), modelled by the
`extras` association list. -/

/-- The `InterviewState` dataclass of `src/state.py`.  Fields hold
dynamic values because `update_from_dict`/`set` can assign any value to
them. -/
structure InterviewState where
  messages : Val := .vList []
  current_phase : Val := .vStr "initial"
  completed_phases : Val := .vList []
  collected_insights : Val := .vDict
    [("learning_style", .vDict []), ("career_goals", .vDict []),
     ("skills", .vDict []), ("initial_insights", .vDict [])]
  extras : PyDict := []
  deriving Repr

/-- Models `InterviewState.keys()`: the four schema field names. -/
def stateKeys : List String :=
  ["messages", "current_phase", "completed_phases", "collected_insights"]

/-- The phase list `update_from_dict` validates `current_phase` against
(`src/state.py` line 92). -/
def validPhases : List String :=
  ["initial", "learning_style", "career_goals", "skills_assessment", "complete"]

/-- Models `getattr(state, key)` as an option (`none` = `AttributeError`). -/
def InterviewState.getAttr (st : InterviewState) (key : String) : Option Val :=
  if key = "messages" then some st.messages
  else if key = "current_phase" then some st.current_phase
  else if key = "completed_phases" then some st.completed_phases
  else if key = "collected_insights" then some st.collected_insights
  else dget st.extras key

/-- Models `InterviewState.get(key, default)`: `self[key]`, or the default when
the attribute is missing (`KeyError` caught). -/
def InterviewState.get (st : InterviewState) (key : String) (default : Val) : Val :=
  (st.getAttr key).getD default

/-- Models `setattr(state, key, value)`; unknown keys become plain instance
attributes (`extras`). -/
def InterviewState.setAttr (st : InterviewState) (key : String) (v : Val) : InterviewState :=
  if key = "messages" then { st with messages := v }
  else if key = "current_phase" then { st with current_phase := v }
  else if key = "completed_phases" then { st with completed_phases := v }
  else if key = "collected_insights" then { st with collected_insights := v }
  else { st with extras := dset st.extras key v }

/-- Models `InterviewState.set(key, value)`: warns when `key` is not in
`keys()`, then stores via `self[key] = value` regardless. -/
def InterviewState.set (st : InterviewState) (key : String) (v : Val) : InterviewState :=
  st.setAttr key v

/-- Errors raised by `update_from_dict` (caught, logged, re-raised).
`invalidPhase` is `ValueError(f"Invalid phase: ...")` — the spec's
`InvalidPhaseError`; `invalidInsights` is
`ValueError("collected_insights must be a dictionary")`; `typeError`
covers Python `TypeError`/`AttributeError` from operations on a field
whose current value does not have the shape the code expects. -/
inductive MergeError where
  | invalidPhase (v : Val)
  | invalidInsights
  | typeError
  deriving Repr

/-- Outcome of `update_from_dict`: normal return, or an exception
propagating with the state as mutated up to the raise point (the Python
method mutates `self` in place, so earlier keys of the same patch stay
applied when a later key raises). -/
inductive MResult where
  | ok (st : InterviewState)
  | err (e : MergeError) (st : InterviewState)
  deriving Repr

/-- One entry of the `collected_insights` inner loop of
`update_from_dict` (lines 100-107): unknown insight keys are skipped,
dict values are deep-merged into the stored payload via `dict.update`,
non-dict values are skipped with a warning.  Faithful for dict-shaped
stored payloads; a stored non-dict payload has no `.update` in Python
(`AttributeError`), modelled as `typeError`. -/
def insightEntry (c : List (String × Val)) (ik : String) (iv : Val) :
    Except MergeError (List (String × Val)) :=
  if hasKey c ik then
    match iv with
    | .vDict ivd =>
        match dget c ik with
        | some (.vDict old) => .ok (dset c ik (.vDict (dupdate old ivd)))
        | _ => .error .typeError
    | _ => .ok c
  else .ok c

/-- The `collected_insights` inner loop; on an error the categories
merged so far stay applied (in-place mutation). -/
def insightsLoop (c : List (String × Val)) :
    List (String × Val) → List (String × Val) × Option MergeError
  | [] => (c, none)
  | (ik, iv) :: rest =>
      match insightEntry c ik iv with
      | .ok c' => insightsLoop c' rest
      | .error e => (c, some e)

/-- One iteration of the `update_from_dict` loop for key `key` with
patch value `value` (`src/state.py` lines 86-110): unknown keys are
skipped; `current_phase` is validated against `validPhases` and, when
the new value is not already in `completed_phases` and differs from the
current phase, the current phase is appended to `completed_phases`;
`collected_insights` must be a dict and is deep-merged category-wise;
finally `self[key] = value` overwrites the field with the patch value
for every recognized key.  Membership tests on `completed_phases`
require a list there (Python raises `TypeError` on a non-iterable). -/
def mergeKey (st : InterviewState) (key : String) (value : Val) : MResult :=
  if key ∉ stateKeys then .ok st
  else if key = "current_phase" then
    match value with
    | .vStr s =>
        if s ∈ validPhases then
          match st.completed_phases with
          | .vList l =>
              let st' :=
                if l.any (isStrEq s) || isStrEq s st.current_phase then st
                else { st with completed_phases := .vList (l ++ [st.current_phase]) }
              .ok { st' with current_phase := .vStr s }
          | _ => .err .typeError st
        else .err (.invalidPhase value) st
    | _ => .err (.invalidPhase value) st
  else if key = "collected_insights" then
    match value with
    | .vDict d =>
        match st.collected_insights with
        | .vDict c =>
            match insightsLoop c d with
            | (_, none) => .ok { st with collected_insights := .vDict d }
            | (c', some e) => .err e { st with collected_insights := .vDict c' }
        | _ => .err .typeError st
    | _ => .err .invalidInsights st

  else .ok (st.setAttr key value)

/-- Models `InterviewState.update_from_dict(data)` (`src/state.py` lines
82-115): iterate the patch entries in order; an exception aborts the
loop and propagates, with mutations made before the raise kept. -/
def update_from_dict (st : InterviewState) : List (String × Val) → MResult
  | [] => .ok st
  | (k, v) :: rest =>
      match mergeKey st k v with
      | .ok st' => update_from_dict st' rest
      | .err e st' => .err e st'

/-- Default (`__init__`) state. -/
def initState : InterviewState := {}

/-! ## Workflow graph (`src/workflow.py`) and agents (`src/agents/base.py`)

The workflow functions operate on plain Python dicts (`Dict[str, Any]`),
modelled as `PyDict`.  The LangGraph `END` sentinel is the string
constant `"__end__"`. -/

/-- LangGraph's `END` sentinel. -/
def ENDv : Val := .vStr "__end__"

/-- View a value as a Python list.  Every call site below receives an
actual list in all executions considered in this file (in Python a
non-list would raise `TypeError` inside the node's `try` block). -/
def asList : Val → List Val
  | .vList l => l
  | _ => []

/-- View a value as a Python dict (same caveat as `asList`). -/
def asDict : Val → PyDict
  | .vDict d => d
  | _ => []

/-- Models `v.get(k)` on a dict value, `none` when `v` is not a dict
(`AttributeError` in Python, caught by the enclosing `try`). -/
def pyGet (v : Val) (key : String) : Option Val :=
  match v with
  | .vDict d => some (dgetD d key .vNone)
  | _ => none

/-- Models `list(set(l))` / `list(dict.fromkeys(l))`: duplicates removed,
keeping the first occurrence.  CPython's `set` iteration order is
unspecified; all downstream uses of these lists are membership tests,
which do not depend on the order. -/
def dedupFirst (l : List Val) : List Val :=
  l.foldl (fun acc v => if acc.any (Val.beq v) then acc else acc ++ [v]) []

/-- Models `d.setdefault(key, []).append(v)`, as used on `completed_phases`
(the value under `key` is a list at every call site reached here). -/
def appendToListKey (d : PyDict) (key : String) (v : Val) : PyDict :=
  match dget d key with
  | some (.vList l) => dset d key (.vList (l ++ [v]))
  | some _ => d
  | none => dset d key (.vList [v])

/-- Models `{"role": r, "content": c}`. -/
def mkMsg (role content : String) : Val :=
  .vDict [("role", .vStr role), ("content", .vStr content)]

/-- The `state.setdefault(...)` block at the top of
`should_end_interview` (`src/workflow.py` lines 36-40). -/
def guardDefaults (st : PyDict) : PyDict :=
  let st := setdefault st "completed_phases" (.vList [])
  let st := setdefault st "collected_insights" (.vDict [])
  let st := setdefault st "learning_style" (.vDict [])
  let st := setdefault st "career_path" (.vDict [])
  setdefault st "current_phase" (.vStr "initial")

/-- The body of `should_end_interview` after the defaults
(`src/workflow.py` lines 42-72); `none` models an exception reaching the
`except` clause. -/
def should_end_body (st : PyDict) : Option Bool := do
  let lsv ← pyGet (dgetD st "learning_style" (.vDict [])) "primary_style"
  let has_learning_style := truthy lsv
  let cpv ← pyGet (dgetD st "career_path" (.vDict [])) "suggested_path"
  let has_career_path := truthy cpv
  let has_insights := truthy (dgetD st "collected_insights" .vNone)
  let completed :=
    match dgetD st "completed_phases" (.vList []) with
    | .vList l => some l
    | _ => none
  let completed ← completed
  let all_phases_completed :=
    ["initial", "learning_style", "career_path", "aggregate"].all
      (fun r => completed.any (isStrEq r))
  let cur := dgetD st "current_phase" .vNone
  if isStrEq "aggregate" cur || isStrEq "complete" cur then
    pure (has_learning_style && has_career_path && has_insights &&
          all_phases_completed)
  else
    pure false

/-- Models `should_end_interview(state)` (`src/workflow.py` lines 27-77).  The
function mutates its argument through `setdefault` before evaluating;
the pair returned is (boolean result, state after those mutations).  On
an internal exception the `except` clause returns `False`. -/
def should_end_interview (st0 : PyDict) : Bool × PyDict :=
  let st := guardDefaults st0
  ((should_end_body st).getD false, st)

/-- Models `should_continue(state)` (`src/workflow.py` lines 23-25). -/
def should_continue (st : PyDict) : Bool :=
  !(should_end_interview st).1

/-- Mock `InterviewCoordinator.process` (`src/agents/base.py` lines
99-116): copy the state and overwrite messages (unchanged),
`current_phase`/`next` to `learning_style`, and `completed_phases` to
`list(set(old + ["initial"]))`. -/
def coordinatorAgent (st : PyDict) : PyDict :=
  dupdate st
    [("messages", dgetD st "messages" (.vList [])),
     ("current_phase", .vStr "learning_style"),
     ("next", .vStr "learning_style"),
     ("completed_phases",
      .vList (dedupFirst (asList (dgetD st "completed_phases" (.vList []))
                          ++ [.vStr "initial"])))]

/-- Mock `LearningStyleAnalyzer.process` (`src/agents/base.py` lines
128-146). -/
def learningAgent (st : PyDict) : PyDict :=
  dupdate st
    [("messages", dgetD st "messages" (.vList [])),
     ("learning_style", .vDict [("primary_style", .vStr "hands-on")]),
     ("current_phase", .vStr "career_path"),
     ("next", .vStr "career_path"),
     ("completed_phases",
      .vList (dedupFirst (asList (dgetD st "completed_phases" (.vList []))
                          ++ [.vStr "learning_style"])))]

/-- Mock `CareerPathAnalyzer.process` (`src/agents/base.py` lines
158-176). -/
def careerAgent (st : PyDict) : PyDict :=
  dupdate st
    [("messages", dgetD st "messages" (.vList [])),
     ("career_path", .vDict [("suggested_path", .vStr "software-architect")]),
     ("current_phase", .vStr "aggregate"),
     ("next", .vStr "aggregate"),
     ("completed_phases",
      .vList (dedupFirst (asList (dgetD st "completed_phases" (.vList []))
                          ++ [.vStr "career_path"])))]

/-- Mock `InsightAggregator.process` (`src/agents/base.py` lines
188-209): `collected_insights` is set to a fresh dict with the
`learning_profile` and `career_goals` categories taken from the state's
`learning_style` and `career_path` fields. -/
def aggregatorAgent (st : PyDict) : PyDict :=
  dupdate st
    [("messages", dgetD st "messages" (.vList [])),
     ("collected_insights",
      .vDict [("learning_profile", dgetD st "learning_style" (.vDict [])),
              ("career_goals", dgetD st "career_path" (.vDict []))]),
     ("current_phase", .vStr "complete"),
     ("next", ENDv),
     ("completed_phases",
      .vList (dedupFirst (asList (dgetD st "completed_phases" (.vList []))
                          ++ [.vStr "aggregate"])))]

/-- Models `process_coordinator(state, agent)` (`src/workflow.py` lines
79-101).  `agentResult` is the outcome of `await agent.process(state)`:
`some r` a normal return, `none` an exception, which the surrounding
`try`/`except` converts into the fallback dict of lines 97-101. -/
def process_coordinator (st : PyDict) (agentResult : Option PyDict) : PyDict :=
  match agentResult with
  | some result =>
      let result :=
        if (asList (dgetD result "completed_phases" (.vList []))).any
             (isStrEq "initial") then result
        else appendToListKey result "completed_phases" (.vStr "initial")
      let result := dset result "next" (.vStr "learning_style")
      dset result "current_phase" (.vStr "learning_style")
  | none =>
      [("message", .vStr "Error in coordinator phase"),
       ("next", .vStr "learning_style"),
       ("current_phase", dgetD st "current_phase" (.vStr "initial"))]

/-- Models `process_learning(state, agent)` (`src/workflow.py` lines 103-125). -/
def process_learning (st : PyDict) (agentResult : Option PyDict) : PyDict :=
  match agentResult with
  | some result =>
      let result :=
        if (asList (dgetD result "completed_phases" (.vList []))).any
             (isStrEq "learning_style") then result
        else appendToListKey result "completed_phases" (.vStr "learning_style")
      let result := dset result "next" (.vStr "career_path")
      dset result "current_phase" (.vStr "career_path")
  | none =>
      [("message", .vStr "Error in learning style analysis"),
       ("next", .vStr "career_path"),
       ("current_phase", dgetD st "current_phase" (.vStr "learning_style"))]

/-- Models `process_career(state, agent)` (`src/workflow.py` lines 127-149). -/
def process_career (st : PyDict) (agentResult : Option PyDict) : PyDict :=
  match agentResult with
  | some result =>
      let result :=
        if (asList (dgetD result "completed_phases" (.vList []))).any
             (isStrEq "career_path") then result
        else appendToListKey result "completed_phases" (.vStr "career_path")
      let result := dset result "next" (.vStr "aggregate")
      dset result "current_phase" (.vStr "aggregate")
  | none =>
      [("message", .vStr "Error in career path analysis"),
       ("next", .vStr "aggregate"),
       ("current_phase", dgetD st "current_phase" (.vStr "career_path"))]

/-- Models `result["messages"][-5:]`. -/
def lastFive (l : List Val) : List Val := l.drop (l.length - 5)

/-- Models `process_aggregator(state, agent)` (`src/workflow.py` lines
151-200).  The whole body sits in a `try`; on an exception (including
one from the agent) the `except` clause returns the input state
unchanged.  `agentResult` plays the same role as in
`process_coordinator`. -/
def process_aggregator (st : PyDict) (agentResult : Option PyDict) : PyDict :=
  let body : Option PyDict := do
    let result := st
    let lsv ← pyGet (dgetD result "learning_style" (.vDict [])) "primary_style"
    let has_learning_style := truthy lsv
    let cpv ← pyGet (dgetD result "career_path" (.vDict [])) "suggested_path"
    let has_career_path := truthy cpv
    let result :=
      if hasKey result "completed_phases" then result
      else dset result "completed_phases" (.vList [])
    let result ←
      if !(asList (dgetD result "completed_phases" (.vList []))).any
            (isStrEq "aggregate")
         && has_learning_style && has_career_path then do
        let agentRes ← agentResult
        let result := dupdate result agentRes
        let result := appendToListKey result "completed_phases" (.vStr "aggregate")
        let result :=
          if hasKey result "messages" then
            dset result "messages"
              (.vList (lastFive (asList (dgetD result "messages" (.vList [])))))
          else result
        pure result
      else pure result
    let has_insights := truthy (dgetD result "collected_insights" .vNone)
    if has_learning_style && has_career_path && has_insights
       && (asList (dgetD result "completed_phases" (.vList []))).any
            (isStrEq "aggregate") then
      pure (dset (dset result "next" ENDv) "current_phase" (.vStr "complete"))
    else
      pure (dset (dset result "next" (.vStr "aggregate")) "current_phase"
              (.vStr "aggregate"))
  body.getD st

/-! ### Node wrappers and graph wiring (`create_interview_workflow`,
`src/workflow.py` lines 202-345).  In mock mode the four agents never
raise (their `process` bodies catch internally), so the wrappers pass
`some (agent state)` to the `process_*` drivers. -/

/-- Models `coordinator_wrapper` (lines 225-241). -/
def coordinator_wrapper (st0 : PyDict) : PyDict :=
  let st := setdefault st0 "current_phase" (.vStr "initial")
  let st := setdefault st "messages" (.vList [])
  let st := setdefault st "completed_phases" (.vList [])
  let st := setdefault st "collected_insights" (.vDict [])
  let st := setdefault st "learning_style" (.vDict [])
  let st := setdefault st "career_path" (.vDict [])
  let result := process_coordinator st (some (coordinatorAgent st))
  if !(isStrEq "coordinator" (dgetD result "next" .vNone)) then
    appendToListKey result "completed_phases" (.vStr "initial")
  else result

/-- Models `learning_wrapper` (lines 243-251). -/
def learning_wrapper (st0 : PyDict) : PyDict :=
  let st := dset st0 "current_phase" (.vStr "learning_style")
  let result := process_learning st (some (learningAgent st))
  if !(isStrEq "learning_style" (dgetD result "next" .vNone)) then
    appendToListKey result "completed_phases" (.vStr "learning_style")
  else result

/-- Models `career_wrapper` (lines 253-261). -/
def career_wrapper (st0 : PyDict) : PyDict :=
  let st := dset st0 "current_phase" (.vStr "career_path")
  let result := process_career st (some (careerAgent st))
  if !(isStrEq "career_path" (dgetD result "next" .vNone)) then
    appendToListKey result "completed_phases" (.vStr "career_path")
  else result

/-- Models `aggregator_wrapper` (lines 263-271). -/
def aggregator_wrapper (st0 : PyDict) : PyDict :=
  let st := dset st0 "current_phase" (.vStr "aggregate")
  let result := process_aggregator st (some (aggregatorAgent st))
  if !(asList (dgetD result "completed_phases" (.vList []))).any
       (isStrEq "aggregate") then
    appendToListKey result "completed_phases" (.vStr "aggregate")
  else result

/-- The four graph nodes. -/
inductive Node where
  | coordinator
  | learning_style
  | career_path
  | aggregate
  deriving Repr, DecidableEq

/-- The node functions as registered by `workflow.add_node`. -/
def applyNode : Node → PyDict → PyDict
  | .coordinator => coordinator_wrapper
  | .learning_style => learning_wrapper
  | .career_path => career_wrapper
  | .aggregate => aggregator_wrapper

/-- The conditional edges of `create_interview_workflow` (lines
281-329): after each of the first three nodes the graph goes to the
next node unless `should_end_interview` holds; after `aggregate` it
ends when the guard holds, `next` is the `END` sentinel, or the phase
is `complete` with non-empty `collected_insights`, and otherwise loops
on `aggregate`.  `none` is the `END` routing.  (The guard's `setdefault`
mutations act on the dict handed to the edge condition and are not
written back to the graph state, so only the boolean matters here.) -/
def edgeAfter : Node → PyDict → Option Node
  | .coordinator, x =>
      if (should_end_interview x).1 then none else some .learning_style
  | .learning_style, x =>
      if (should_end_interview x).1 then none else some .career_path
  | .career_path, x =>
      if (should_end_interview x).1 then none else some .aggregate
  | .aggregate, x =>
      if (should_end_interview x).1
         || Val.beq (dgetD x "next" .vNone) ENDv
         || (isStrEq "complete" (dgetD x "current_phase" .vNone)
             && truthy (dgetD x "collected_insights" .vNone)) then none
      else some .aggregate

/-- The LangGraph executor: starting at the entry point, run the current
node, write its returned keys over the state channels, evaluate the
node's conditional edge on the updated state, and continue until the
edge routes to `END` (or the recursion limit, default 25, is
exhausted).  `invoke`/`ainvoke` on a compiled graph runs this loop to
completion within the one call; no interrupt or checkpoint is
configured in `create_interview_workflow`.  Returns the final state and
the sequence of nodes executed. -/
def runGraph : Nat → Node → PyDict → PyDict × List Node
  | 0, _, st => (st, [])
  | fuel + 1, node, st =>
      let st' := dupdate st (applyNode node st)
      match edgeAfter node st' with
      | none => (st', [node])
      | some nxt =>
          let (fin, visited) := runGraph fuel nxt st'
          (fin, node :: visited)

/-- Models `workflow.ainvoke(state)`: run the graph from the entry point
`coordinator`. -/
def ainvoke (st : PyDict) : PyDict × List Node :=
  runGraph 25 .coordinator st

/-! ## Driver (`src/main.py`, `process_user_input`) -/

/-- Models `state["messages"].extend([msg for msg in value if msg not in
state["messages"]])` (`src/main.py` line 67): the comprehension is
evaluated against the pre-extend list, then appended. -/
def extendDedup (old new_ : List Val) : List Val :=
  old ++ new_.filter (fun m => !old.any (Val.beq m))

/-- Models `process_user_input(workflow, user_input, state)` (`src/main.py`
lines 36-109): append the user message when the input is non-empty,
`ainvoke` the workflow, then merge the result into the session state
(messages appended with dedup, `completed_phases` united via
`dict.fromkeys`, every other key overwritten), apply the `setdefault`
block, and answer with the content of the last message.  The returned
`result` is always a dict here, so the `result == END` branch of lines
52-58 is not taken.  Returns (response text, updated state). -/
def process_user_input (userInput : String) (state0 : PyDict) : String × PyDict :=
  let state :=
    if userInput ≠ "" then
      let state := setdefault state0 "messages" (.vList [])
      dset state "messages"
        (.vList (asList (dgetD state "messages" (.vList []))
                 ++ [mkMsg "user" userInput]))
    else state0
  let (result, _) := ainvoke state
  let state := result.foldl (fun st kv =>
    if kv.1 = "messages" && hasKey st "messages" then
      dset st "messages"
        (.vList (extendDedup (asList (dgetD st "messages" (.vList [])))
                 (asList kv.2)))
    else if kv.1 = "completed_phases" && hasKey st "completed_phases" then
      dset st "completed_phases"
        (.vList (dedupFirst (asList (dgetD st "completed_phases" (.vList []))
                             ++ asList kv.2)))
    else dset st kv.1 kv.2) state
  let state := setdefault state "current_phase" (.vStr "initial")
  let state := setdefault state "completed_phases" (.vList [])
  let state := setdefault state "messages" (.vList [])
  let state := setdefault state "learning_style" (.vDict [])
  let state := setdefault state "career_path" (.vDict [])
  let state := setdefault state "insights" (.vList [])
  match (asList (dgetD state "messages" (.vList []))).getLast? with
  | none =>
      -- `state.get("message", "...")`; apology text abridged
      (match dgetD state "message" (.vStr "apology") with
       | .vStr s => s
       | _ => "", state)
  | some m => (match pyGet m "content" with
       | some (.vStr s) => s
       | _ => "", state)

/-- The initial workflow state used by the repository's own workflow
tests and matching the spec's end-to-end scenario (all fields at their
zero value, `current_phase = "initial"`). -/
def workflowInitState : PyDict :=
  [("current_phase", .vStr "initial"), ("messages", .vList []),
   ("completed_phases", .vList []), ("collected_insights", .vDict []),
   ("learning_style", .vDict []), ("career_path", .vDict []),
   ("next", .vStr "coordinator")]

/-- A scripted interview session: fold `process_user_input` over a list
of user inputs, counting the calls after which the merged state's
`next` routing equals the `END` sentinel (the caller-visible terminal
signal). -/
def runSession : List String → PyDict → PyDict × Nat
  | [], st => (st, 0)
  | i :: rest, st =>
      let (_, st') := process_user_input i st
      let (fin, n) := runSession rest st'
      (fin, (if Val.beq (dgetD st' "next" .vNone) ENDv then 1 else 0) + n)

/-- Four well-formed scripted user inputs for the spec's end-to-end
scenario. -/
def scriptedInputs : List String :=
  ["I like hands-on projects", "I want to be an architect",
   "Tell me more", "Thanks"]


/-! ## Concrete states used by the theorems below -/

/-- Projection of a merge outcome to the state it leaves behind. -/
def MResult.state : MResult → InterviewState
  | .ok st => st
  | .err _ st => st

/-- Apply a sequence of `update_from_dict` calls; an exception stops the
sequence (the caller would see it propagate). -/
def mergePatches (st : InterviewState) : List (List (String × Val)) → MResult
  | [] => .ok st
  | p :: rest =>
      match update_from_dict st p with
      | .ok st' => mergePatches st' rest
      | e => e

/-- A state whose `learning_style` insight category already holds one
entry. -/
def insightSt : InterviewState :=
  { collected_insights := .vDict
      [("learning_style", .vDict [("a", .vStr "1")]),
       ("career_goals", .vDict []), ("skills", .vDict []),
       ("initial_insights", .vDict [])] }

/-- A stored message and a fresh incoming message. -/
def msg1 : Val := mkMsg "user" "first message"

/-- See `msg1`. -/
def msg2 : Val := mkMsg "assistant" "second message"

/-- A state that already holds one message. -/
def msgSt : InterviewState := { messages := .vList [msg1] }

/-- A guard input with all five inspected keys present but a
`learning_style` value on which `.get` raises, driving
`should_end_interview` into its `except` clause. -/
def guardBrokenState : PyDict :=
  [("completed_phases", .vList []), ("collected_insights", .vDict []),
   ("learning_style", .vNat 3), ("career_path", .vDict []),
   ("current_phase", .vStr "initial")]

/-- The session state right after the first scripted input — the call
after which the merged routing value first equals the `END` sentinel. -/
def terminalPointState : PyDict :=
  (process_user_input "I like hands-on projects" workflowInitState).2

/-! ## Helper lemmas -/

theorem dget_dset_self (e : PyDict) (k : String) (v : Val) :
    dget (dset e k v) k = some v := by
  induction e with
  | nil => simp [dset, dget]
  | cons p rest ih =>
      by_cases h : p.1 = k
      · simp [dset, dget, h]
      · simp [dset, dget, h, ih]

theorem update_phase_ok (st : InterviewState) (s : String) (l : List Val)
    (hl : st.completed_phases = .vList l) (hs : s ∈ validPhases) :
    update_from_dict st [("current_phase", .vStr s)] =
      .ok { st with current_phase := .vStr s,
                    completed_phases := .vList
                      (if l.any (isStrEq s) || isStrEq s st.current_phase
                       then l else l ++ [st.current_phase]) } := by
  simp only [update_from_dict, mergeKey, hl, hs]
  norm_num [stateKeys]
  split <;> simp_all

theorem update_phase_err (st : InterviewState) (s : String)
    (hs : s ∉ validPhases) :
    update_from_dict st [("current_phase", .vStr s)] =
      .err (.invalidPhase (.vStr s)) st := by
  simp only [update_from_dict, mergeKey, hs]
  norm_num [stateKeys]

/-! ## Claim theorems -/

/-- C2 (failing input): merging a patch that carries a
`collected_insights` dict first deep-merges it into the stored
categories, but line 109 (`self[key] = value`) then overwrites the whole
field with the patch value, so the stored entry `"a" ↦ "1"` of the
`learning_style` category is lost instead of surviving the merge as the
claim (and the deep-merge code itself) intends. -/
theorem C2_category_overwritten :
    update_from_dict insightSt
      [("collected_insights", .vDict [("learning_style", .vDict [("b", .vStr "2")])])] =
      .ok { insightSt with collected_insights :=
              (.vDict [("learning_style", .vDict [("b", .vStr "2")])]) } ∧
    dget (asDict (update_from_dict insightSt
      [("collected_insights", .vDict [("learning_style", .vDict [("b", .vStr "2")])])]).state.collected_insights)
      "learning_style" = some (.vDict [("b", .vStr "2")]) :=
  ⟨rfl, rfl⟩

/-- C3 (counterexample): the claim's phase enumeration contains
`aggregate`, but `update_from_dict` validates against
`["initial", "learning_style", "career_goals", "skills_assessment",
"complete"]`, so merging `{current_phase: "aggregate"}` raises. -/
theorem C3_aggregate_rejected :
    update_from_dict initState [("current_phase", .vStr "aggregate")] =
      .err (.invalidPhase (.vStr "aggregate")) initState :=
  rfl

/-- C3 (amended): merging `{current_phase: v}` raises the invalid-phase
error if and only if `v` is outside the five-element enumeration
`{initial, learning_style, career_goals, skills_assessment, complete}`
(so `aggregate` and `career_path` are rejected, contrary to the claim),
and on the error the state is left unmodified. -/
theorem C3_phase_validation (st : InterviewState) (s : String) (l : List Val)
    (hl : st.completed_phases = .vList l) :
    (s ∈ validPhases →
       ∃ st', update_from_dict st [("current_phase", .vStr s)] = .ok st') ∧
    (s ∉ validPhases →
       update_from_dict st [("current_phase", .vStr s)] =
         .err (.invalidPhase (.vStr s)) st) := by
  constructor
  · intro hs
    exact ⟨_, update_phase_ok st s l hl hs⟩
  · intro hs
    exact update_phase_err st s hs

/-- Witness for C3: `skills_assessment` is accepted, `aggregate` is not
(on a fresh state, where it leaves the state unmodified). -/
theorem C3_phase_validation_witness :
    (∃ st', update_from_dict initState
       [("current_phase", .vStr "skills_assessment")] = .ok st') ∧
    update_from_dict initState [("current_phase", .vStr "aggregate")] =
      .err (.invalidPhase (.vStr "aggregate")) initState :=
  ⟨(C3_phase_validation initState "skills_assessment" [] rfl).1 (by decide),
   (C3_phase_validation initState "aggregate" [] rfl).2 (by decide)⟩

/-- C4 (counterexample): the dedup test of line 94 checks whether the
NEW phase value is absent from `completed_phases`, not the previous
value being appended, so a reachable merge sequence appends
`learning_style` twice: after the four merges below `completed_phases`
is `["initial", "learning_style", "learning_style"]`. -/
theorem C4_duplicate_completed_phase :
    mergePatches initState
      [[("current_phase", .vStr "learning_style")],
       [("current_phase", .vStr "career_goals")],
       [("current_phase", .vStr "learning_style")],
       [("current_phase", .vStr "skills_assessment")]] =
      .ok { initState with
            current_phase := .vStr "skills_assessment",
            completed_phases :=
              (.vList [.vStr "initial", .vStr "learning_style",
                       .vStr "learning_style"]) } ∧
    List.countP (isStrEq "learning_style")
      [Val.vStr "initial", Val.vStr "learning_style", Val.vStr "learning_style"] = 2 :=
  ⟨rfl, rfl⟩

/-- C4 (amended): when a merge sets `current_phase` to a valid phase
`s`, the previous phase is appended to `completed_phases` exactly when
`s` (the NEW value, not the previous one) is not already present there
and differs from the current phase; consequently the same phase
identifier can appear more than once in `completed_phases`. -/
theorem C4_append_tests_new_value (st : InterviewState) (s : String)
    (l : List Val) (hl : st.completed_phases = .vList l)
    (hs : s ∈ validPhases) :
    update_from_dict st [("current_phase", .vStr s)] =
      .ok { st with current_phase := .vStr s,
                    completed_phases :=
                      (.vList (if l.any (isStrEq s) || isStrEq s st.current_phase
                               then l else l ++ [st.current_phase])) } :=
  update_phase_ok st s l hl hs

/-- Witness for C4: a first transition away from `initial` appends
`initial`. -/
theorem C4_append_tests_new_value_witness :
    update_from_dict initState [("current_phase", .vStr "learning_style")] =
      .ok { initState with
            current_phase := .vStr "learning_style",
            completed_phases := (.vList [.vStr "initial"]) } := by
  have h := C4_append_tests_new_value initState "learning_style" [] rfl (by decide)
  simpa using h

/-- C6 (counterexample): merging `{messages: [msg2]}` into a state whose
transcript is `[msg1]` does not append — the resulting `messages` field
is exactly `[msg2]` and the previously stored `msg1` is gone. -/
theorem C6_messages_not_appended :
    update_from_dict msgSt [("messages", .vList [msg2])] =
      .ok { msgSt with messages := .vList [msg2] } ∧
    (asList (update_from_dict msgSt
        [("messages", .vList [msg2])]).state.messages).any (Val.beq msg1) = false :=
  ⟨rfl, rfl⟩

/-- C6 (amended): `update_from_dict` has no `messages` branch, so a
patch's `messages` value wholesale replaces the field (for any state and
any value, with no error); append-with-dedup semantics exist only in
`process_user_input`'s result merge in `src/main.py`, not here. -/
theorem C6_messages_replaced (st : InterviewState) (v : Val) :
    update_from_dict st [("messages", v)] = .ok { st with messages := v } :=
  rfl

/-- C9: a patch entry whose key is outside the four-field schema is
skipped: it raises nothing, changes nothing, and the rest of the patch
is processed as if the entry were absent. -/
theorem C9_unknown_key_ignored (st : InterviewState) (k : String) (v : Val)
    (rest : List (String × Val)) (hk : k ∉ stateKeys) :
    update_from_dict st ((k, v) :: rest) = update_from_dict st rest := by
  simp [update_from_dict, mergeKey, hk]

/-- Witness for C9: an unknown top-level key alone is a no-op merge. -/
theorem C9_unknown_key_ignored_witness :
    update_from_dict initState [("bogus", .vNat 5)] = .ok initState :=
  (C9_unknown_key_ignored initState "bogus" (.vNat 5) [] (by decide)).trans rfl

/-- C10: `InterviewState.set` stores any key (warning but storing when
the key is outside the schema) and `get` reads it back, so set/get
round-trips for every key and value, including unknown keys. -/
theorem C10_set_get_roundtrip (st : InterviewState) (k : String) (v d : Val) :
    (st.set k v).get k d = v := by
  by_cases h1 : k = "messages"
  · subst h1; rfl
  by_cases h2 : k = "current_phase"
  · subst h2; rfl
  by_cases h3 : k = "completed_phases"
  · subst h3; rfl
  by_cases h4 : k = "collected_insights"
  · subst h4; rfl
  simp [InterviewState.set, InterviewState.setAttr, InterviewState.get,
        InterviewState.getAttr, h1, h2, h3, h4, dget_dset_self]

/-- C7 (counterexample): `should_end_interview` is not side-effect-free:
called on the empty state dict it mutates its argument, which comes back
with the five inspected keys initialized through `setdefault` instead of
unchanged (five entries where the input had none). -/
theorem C7_guard_mutates_state :
    (should_end_interview ([] : PyDict)).2 =
      [("completed_phases", .vList []), ("collected_insights", .vDict []),
       ("learning_style", .vDict []), ("career_path", .vDict []),
       ("current_phase", .vStr "initial")] ∧
    ((should_end_interview ([] : PyDict)).2).length = 5 :=
  ⟨rfl, rfl⟩

/-- C7 (amended): the guard is total (and `False` is returned whenever
its body reaches the `except` clause), and on any state in which the
five inspected fields are already present it leaves the state
unchanged; on states with missing fields, however, it initializes them
via `setdefault` — a mutation of its argument. -/
theorem C7_guard_total_and_framed (st : PyDict)
    (h1 : hasKey st "completed_phases" = true)
    (h2 : hasKey st "collected_insights" = true)
    (h3 : hasKey st "learning_style" = true)
    (h4 : hasKey st "career_path" = true)
    (h5 : hasKey st "current_phase" = true) :
    (should_end_interview st).2 = st ∧
    (should_end_body st = none → (should_end_interview st).1 = false) := by
  have hg : guardDefaults st = st := by
    simp [guardDefaults, setdefault, h1, h2, h3, h4, h5]
  refine ⟨hg, fun hb => ?_⟩
  show (should_end_body (guardDefaults st)).getD false = false
  rw [hg, hb]
  rfl

/-- Witness for C7: a five-key state on which the guard body raises
internally (non-dict `learning_style`): the state comes back unchanged
and the answer is `False`. -/
theorem C7_guard_total_and_framed_witness :
    (should_end_interview guardBrokenState).2 = guardBrokenState ∧
    (should_end_interview guardBrokenState).1 = false := by
  have h := C7_guard_total_and_framed guardBrokenState rfl rfl rfl rfl rfl
  exact ⟨h.1, h.2 rfl⟩

/-- C8 (counterexample): when the coordinator agent raises,
`process_coordinator` does not return the unchanged state plus an
apology — it returns a three-key fallback dict that drops the state's
`messages` (and everything else), and its routing directive `next` IS
advanced to `learning_style`, the next phase. -/
theorem C8_fallback_advances_next :
    dget (process_coordinator workflowInitState none) "next" =
      some (.vStr "learning_style") ∧
    hasKey (process_coordinator workflowInitState none) "messages" = false :=
  ⟨rfl, rfl⟩

/-- C8 (amended): on agent failure the exception is absorbed and
`process_coordinator` returns a fallback patch that carries an error
message, preserves `current_phase` (defaulting to `initial`), and
contains no insight data — but the patch is not the unchanged state, and
its `next` routing directive is set to `learning_style`, the following
phase. -/
theorem C8_fallback_patch (st : PyDict) :
    dget (process_coordinator st none) "message" =
      some (.vStr "Error in coordinator phase") ∧
    dget (process_coordinator st none) "next" = some (.vStr "learning_style") ∧
    dget (process_coordinator st none) "current_phase" =
      some (dgetD st "current_phase" (.vStr "initial")) ∧
    dget (process_coordinator st none) "collected_insights" = none :=
  ⟨rfl, rfl, rfl, rfl⟩

/-- C1 (failing input): one `ainvoke` call on the initial state does not
stop after the coordinator step — the compiled graph's conditional edges
route straight into the next node, so the single call executes all four
nodes and ends with `current_phase = "complete"` and the `END` routing,
not `learning_style` (the repository's own
`test_workflow_coordinator_phase` expects the single-step outcome). -/
theorem C1_one_call_runs_all_phases :
    (ainvoke workflowInitState).2 =
      [.coordinator, .learning_style, .career_path, .aggregate] ∧
    dget (ainvoke workflowInitState).1 "current_phase" =
      some (.vStr "complete") ∧
    dget (ainvoke workflowInitState).1 "next" = some ENDv :=
  ⟨rfl, rfl, rfl⟩

/-- C5 (counterexample): in the scripted session the merged routing
value first equals the `END` sentinel right after the FIRST input (the
graph cascades to completion in one call), and at that point
`collected_insights` has no `final_report` and no `learning_style`
category (the aggregator writes `learning_profile` and `career_goals`
instead), refuting the claimed category contents at the terminal
point. -/
theorem C5_terminal_missing_categories :
    Val.beq (dgetD terminalPointState "next" .vNone) ENDv = true ∧
    dget (asDict (dgetD terminalPointState "collected_insights" .vNone))
      "final_report" = none ∧
    dget (asDict (dgetD terminalPointState "collected_insights" .vNone))
      "learning_style" = none :=
  ⟨rfl, rfl, rfl⟩

/-- C5 (amended): over the four scripted inputs the caller-visible
terminal sentinel (`next == END` after the merge) occurs exactly once —
after the first input, not the fourth — and at that point
`collected_insights` holds exactly the non-empty `learning_profile` and
`career_goals` categories; the remaining inputs leave the session on
`current_phase = "aggregate"` (the guard ends later runs before the
aggregator node retriggers). -/
theorem C5_terminal_behavior :
    (runSession scriptedInputs workflowInitState).2 = 1 ∧
    dget (asDict (dgetD terminalPointState "collected_insights" .vNone))
      "learning_profile" = some (.vDict [("primary_style", .vStr "hands-on")]) ∧
    dget (asDict (dgetD terminalPointState "collected_insights" .vNone))
      "career_goals" =
      some (.vDict [("suggested_path", .vStr "software-architect")]) ∧
    dget (runSession scriptedInputs workflowInitState).1 "current_phase" =
      some (.vStr "aggregate") :=
  ⟨rfl, rfl, rfl, rfl⟩
